import Mathlib

/-!
Verification of the media-detail overlay component (`PopupModal.tsx`) and its
helpers. The TypeScript source is shallowly embedded: interfaces become
structures with `Option` fields for optional members, JS truthiness of a
string is modelled as "non-empty", `Array.find` is `List.find?`,
`Array.filter` is `List.filter`, `Array.reduce` without a seed is a left fold
over the tail seeded with the head, and `new Date(s)` comparison of ISO date
strings is modelled by comparing the parsed timestamps, carried here as `Int`.
-/

namespace PopupModal

/-- Embeds interface `MediaInfo.results[i].release_dates[j]`:
`{certification : string, release_date : string}`. The `release_date` is the
timestamp `new Date(release_date).getTime()` of the ISO string, as an `Int`,
since the source only ever compares these values. -/
structure ReleaseDateEntry where
  certification : String
  release_date : Int
deriving DecidableEq, Repr

/-- Embeds interface `MediaInfo.results[i]`:
`{iso_3166_1 : string, rating? : string, release_dates? : Array<...>}`. -/
structure CertResult where
  iso_3166_1 : String
  rating : Option String
  release_dates : Option (List ReleaseDateEntry)
deriving DecidableEq, Repr

/-- Embeds interface `MediaInfo`: `{results? : Array<...>}`. -/
structure MediaInfo where
  results : Option (List CertResult)
deriving DecidableEq, Repr

/-- Embeds a genre object `{name : string}` of `MediaData.genres`. -/
structure Genre where
  name : String
deriving DecidableEq, Repr

/-- Embeds interface `MediaData` (all fields optional in the source).
`vote_average` is a decimal in the TMDB payload, embedded as `ℚ`. -/
structure MediaData where
  backdrop_path : Option String := none
  title : Option String := none
  name : Option String := none
  runtime : Option Nat := none
  release_date : Option String := none
  first_air_date : Option String := none
  vote_average : Option ℚ := none
  genres : Option (List Genre) := none
  overview : Option String := none
deriving DecidableEq, Repr

/-- Embeds `formatRuntime`: hours are `Math.floor(runtime / 60)`, minutes are
`runtime % 60`; the hour segment is emitted only when `hours > 0`. -/
def formatRuntime (runtime : Nat) : String :=
  let hours := runtime / 60
  let minutes := runtime % 60
  if hours > 0 then
    toString hours ++ "h " ++ toString minutes ++ "m"
  else
    toString minutes ++ "m"

/-- Embeds `mediaInfo?.results?.find((result) => result.iso_3166_1 === "US")`
(the same expression is evaluated again inline in the show-rating branch). -/
def usReleaseInfo (mediaInfo : Option MediaInfo) : Option CertResult :=
  (mediaInfo.bind MediaInfo.results).bind
    (fun results => results.find? (fun result => result.iso_3166_1 == "US"))

/-- Embeds
`usReleaseInfo?.release_dates?.filter((date) => date.certification) || []`;
`date.certification` is truthy exactly when the string is non-empty. -/
def certifiedReleases (mediaInfo : Option MediaInfo) : List ReleaseDateEntry :=
  (((usReleaseInfo mediaInfo).bind CertResult.release_dates).getD []).filter
    (fun date => date.certification != "")

/-- Embeds the reducer
`(prev, current) => new Date(prev.release_date) > new Date(current.release_date) ? prev : current`. -/
def laterRelease (prev current : ReleaseDateEntry) : ReleaseDateEntry :=
  if prev.release_date > current.release_date then prev else current

/-- Embeds `relevantRelease`: `certifiedReleases.reduce(laterRelease)` when the
list is non-empty, else `null`. A seedless JS `reduce` folds the tail with the
head as the accumulator. -/
def relevantRelease (mediaInfo : Option MediaInfo) : Option ReleaseDateEntry :=
  match certifiedReleases mediaInfo with
  | [] => none
  | h :: t => some (t.foldl laterRelease h)

/-- Embeds `displayCertification`:
`relevantRelease ? relevantRelease.certification : "Not Rated"`. -/
def displayCertification (mediaInfo : Option MediaInfo) : String :=
  match relevantRelease mediaInfo with
  | some release => release.certification
  | none => "Not Rated"

/-- Embeds the show-branch badge expression:
`releaseInfo && releaseInfo.rating ? releaseInfo.rating : "NR"`, where
`releaseInfo` is the same US lookup as `usReleaseInfo`. An empty rating string
is falsy. -/
def showRating (mediaInfo : Option MediaInfo) : String :=
  match usReleaseInfo mediaInfo with
  | none => "NR"
  | some info =>
    match info.rating with
    | none => "NR"
    | some rating => if rating != "" then rating else "NR"

/-- Embeds the certification badge the render picks per media type:
`media.type === "movie" ? displayCertification : (rating badge)`. -/
def displayedCertification (mediaType : String) (mediaInfo : Option MediaInfo) :
    String :=
  if mediaType == "movie" then displayCertification mediaInfo
  else showRating mediaInfo

/-- The error message set by the `catch` in `fetchData`. -/
def fetchDataErrorMessage : String := "Failed to fetch media data"

/-- The error message set by the `catch` in
`fetchContentRatingsOrReleaseDates`. -/
def ratingsErrorMessage : String := "Failed to fetch content ratings or release dates"

/-- The component state touched by the two fetch effects: `data`, `mediaInfo`
and the shared `error` slot (all `useState`, initially `null`). -/
structure ModalState where
  data : Option MediaData := none
  mediaInfo : Option MediaInfo := none
  error : Option String := none
deriving DecidableEq, Repr

/-- A completion of one of the two fetch effects: success carries the decoded
payload, failure corresponds to the `catch` branch. -/
inductive FetchEvent where
  | primarySuccess (result : MediaData)
  | primaryFailure
  | secondarySuccess (result : MediaInfo)
  | secondaryFailure
deriving DecidableEq, Repr

/-- Embeds the state updates performed when a fetch settles:
`setData(result); setError(null)` / `setError("Failed to fetch media data")`
in `fetchData`, and `setMediaInfo(result); setError(null)` /
`setError("Failed to fetch content ratings or release dates")` in
`fetchContentRatingsOrReleaseDates`. -/
def applyFetchEvent (s : ModalState) : FetchEvent → ModalState
  | .primarySuccess result => { s with data := some result, error := none }
  | .primaryFailure => { s with error := some fetchDataErrorMessage }
  | .secondarySuccess result => { s with mediaInfo := some result, error := none }
  | .secondaryFailure => { s with error := some ratingsErrorMessage }

/-- Embeds the early return `if (error) return <div>Error: {error}</div>`:
when the `error` state is truthy (non-null, non-empty) the overlay body is
replaced by the text `Error: ` followed by the stored message. -/
def renderedError (s : ModalState) : Option String :=
  match s.error with
  | none => none
  | some e => if e != "" then some ("Error: " ++ e) else none

/-- Embeds `const mediaTypePath = media.type === "show" ? "tv" : media.type`
(the second effect computes the same value as `mediaTypeForAPI`). -/
def mediaTypePath (mediaType : String) : String :=
  if mediaType == "show" then "tv" else mediaType

/-- Embeds the request issued by the `fetchData` effect: `none` when the early
return `if (!isVisible) return` fires, otherwise the path
`/${mediaTypePath}/${media.id}` passed to `get`. -/
def primaryFetchPath (isVisible : Bool) (mediaType id : String) : Option String :=
  if !isVisible then none
  else some ("/" ++ mediaTypePath mediaType ++ "/" ++ id)

/-- Embeds `const endpointSuffix = media.type === "show" ? "content_ratings" : "release_dates"`. -/
def endpointSuffix (mediaType : String) : String :=
  if mediaType == "show" then "content_ratings" else "release_dates"

/-- Embeds the request issued by the `fetchContentRatingsOrReleaseDates`
effect: `none` when the early return
`if (!isVisible || (media.type !== "show" && media.type !== "movie")) return`
fires, otherwise the path `/${mediaTypeForAPI}/${media.id}/${endpointSuffix}`. -/
def secondaryFetchPath (isVisible : Bool) (mediaType id : String) : Option String :=
  if !isVisible || (mediaType != "show" && mediaType != "movie") then none
  else some ("/" ++ mediaTypePath mediaType ++ "/" ++ id ++ "/" ++ endpointSuffix mediaType)

/-- A DOM element, abstracted as the collection of nodes it `contains`
(in the DOM sense, the element itself included). -/
structure DomElement where
  nodes : List String
deriving DecidableEq, Repr

/-- `element.contains(target)`. -/
def domContains (element : DomElement) (target : String) : Bool :=
  element.nodes.contains target

/-- Embeds `handleClickOutside`: returns whether the handler invokes
`onClose()` for a single mousedown event, i.e. whether
`modalRef.current && !modalRef.current.contains(event.target)` holds. -/
def handleClickOutside (modalRefCurrent : Option DomElement) (target : String) :
    Bool :=
  match modalRefCurrent with
  | none => false
  | some element => !domContains element target

/-- Number of `onClose()` invocations the document-level listener performs for
one mousedown event: the single registered handler calls it once or not at
all. -/
def onCloseCallCount (modalRefCurrent : Option DomElement) (target : String) :
    Nat :=
  if handleClickOutside modalRefCurrent target then 1 else 0

/-- Embeds `Math.round` on a (finite, non-negative-exponent-safe) number:
round half away from zero towards positive infinity, `⌊x + 1/2⌋`. -/
def jsRound (x : ℚ) : ℤ := ⌊x + 1 / 2⌋

/-- Embeds the star row
`Array.from({length: 5}, (_, index) => index < Math.round(vote_average / 2) ? STAR : STAR_BORDER)`:
`true` stands for a filled star icon. -/
def starIcons (vote_average : ℚ) : List Bool :=
  (List.range 5).map (fun index => decide ((index : ℤ) < jsRound (vote_average / 2)))

/-- The number of filled stars in the rendered row. -/
def filledStars (vote_average : ℚ) : Nat :=
  (starIcons vote_average).count true

/-- Embeds the watch-button handler argument:
`navigate(`/media/tmdb-${isTVShow ? "tv" : "movie"}-${media.id}-${media.title}`)`
with `isTVShow = media.type === "show"`. -/
def watchRoutePath (mediaType id title : String) : String :=
  "/media/tmdb-" ++ (if mediaType == "show" then "tv" else "movie") ++ "-" ++
    id ++ "-" ++ title

/-! ### Runtime formatting (C4) -/

/-- C4: for every runtime `r` in minutes, the formatted runtime is
`{floor(r/60)}h {r mod 60}m` when `floor(r/60) > 0` and `{r mod 60}m` with no
hour segment otherwise; in particular 125 formats as `2h 5m` and 45 as
`45m`. -/
theorem formatRuntime_spec (r : Nat) :
    (0 < r / 60 →
      formatRuntime r = toString (r / 60) ++ "h " ++ toString (r % 60) ++ "m") ∧
    (r / 60 = 0 → formatRuntime r = toString (r % 60) ++ "m") ∧
    formatRuntime 125 = "2h 5m" ∧ formatRuntime 45 = "45m" := by
  refine ⟨fun h => ?_, fun h => ?_, rfl, rfl⟩
  · simp [formatRuntime, h]
  · simp [formatRuntime, h]

/-- Witness for C4 at the concrete runtime 125. -/
theorem formatRuntime_spec_witness :
    0 < 125 / 60 ∧
      formatRuntime 125 = toString (125 / 60) ++ "h " ++ toString (125 % 60) ++ "m" :=
  ⟨by decide, (formatRuntime_spec 125).1 (by decide)⟩

/-! ### Fetch request paths (C8) -/

/-- C8: when visible, the primary fetch requests `/{movie|tv}/{id}` (media
type `show` mapped to `tv`) and the secondary fetch requests
`/{movie|tv}/{id}/{release_dates|content_ratings}` — `release_dates` for
movies, `content_ratings` for shows; the secondary fetch is issued only for
the movie and show media types, and no fetch is issued while invisible. -/
theorem fetch_paths_spec (id : String) :
    primaryFetchPath true "movie" id = some ("/movie/" ++ id) ∧
    primaryFetchPath true "show" id = some ("/tv/" ++ id) ∧
    secondaryFetchPath true "movie" id = some ("/movie/" ++ id ++ "/release_dates") ∧
    secondaryFetchPath true "show" id = some ("/tv/" ++ id ++ "/content_ratings") ∧
    (∀ t, t ≠ "movie" → t ≠ "show" → secondaryFetchPath true t id = none) ∧
    (∀ t, primaryFetchPath false t id = none ∧ secondaryFetchPath false t id = none) := by
  refine ⟨rfl, rfl, ?_, ?_, fun t ht1 ht2 => ?_, fun t => ⟨rfl, rfl⟩⟩
  · simp only [secondaryFetchPath, mediaTypePath, endpointSuffix, String.append_assoc]
    rfl
  · simp only [secondaryFetchPath, mediaTypePath, endpointSuffix, String.append_assoc]
    rfl
  · simp [secondaryFetchPath, ht1, ht2]

/-- Witness for C8 at id `550` and the unsupported media type `person`. -/
theorem fetch_paths_spec_witness :
    ("person" : String) ≠ "movie" ∧ ("person" : String) ≠ "show" ∧
    secondaryFetchPath true "person" "550" = none ∧
    primaryFetchPath true "movie" "550" = some "/movie/550" :=
  ⟨by decide, by decide,
    (fetch_paths_spec "550").2.2.2.2.1 "person" (by decide) (by decide),
    ((fetch_paths_spec "550").1).trans rfl⟩

/-! ### Watch route path (C9) -/

/-- C9 counterexample: the route handed to the navigation collaborator for a
show is `/media/tmdb-tv-123-Dark`, which is neither `show-123-Dark` (the
claim's `{type}-{id}-{title}` built from the media's type) nor even
`tv-123-Dark`: the constructed path carries the fixed `/media/tmdb-` prefix
the claim omits. -/
theorem watchRoutePath_form_cex :
    watchRoutePath "show" "123" "Dark" = "/media/tmdb-tv-123-Dark" ∧
    watchRoutePath "show" "123" "Dark" ≠ "show-123-Dark" ∧
    watchRoutePath "show" "123" "Dark" ≠ "tv-123-Dark" :=
  ⟨rfl, by decide, by decide⟩

/-- C9 amended: activating the watch action hands the navigation collaborator
the route path `/media/tmdb-{type}-{id}-{title}`, where `{type}` is `tv` when
the media type is `show` and `movie` otherwise. -/
theorem watchRoutePath_spec (id title : String) :
    watchRoutePath "show" id title = "/media/tmdb-tv-" ++ id ++ "-" ++ title ∧
    (∀ t, t ≠ "show" →
      watchRoutePath t id title = "/media/tmdb-movie-" ++ id ++ "-" ++ title) := by
  refine ⟨rfl, fun t ht => ?_⟩
  have hb : (t == "show") = false := by simp [ht]
  simp only [watchRoutePath, hb, Bool.false_eq_true, if_false]
  rfl

/-- Witness for C9 (amended) at a movie. -/
theorem watchRoutePath_spec_witness :
    ("movie" : String) ≠ "show" ∧
    watchRoutePath "movie" "42" "Up" = "/media/tmdb-movie-42-Up" :=
  ⟨by decide,
    ((watchRoutePath_spec "42" "Up").2 "movie" (by decide)).trans rfl⟩

/-! ### Error surfacing (C3, C10) -/

/-- C3 counterexample: from the initial state, a primary-fetch failure renders
`Error: Failed to fetch media data` while a secondary-fetch failure renders
`Error: Failed to fetch content ratings or release dates`; the two rendered
strings differ, so the end user can tell which fetch failed, contradicting
the claim that the shown string does not distinguish the causes. -/
theorem error_messages_cex :
    renderedError (applyFetchEvent {} .primaryFailure) =
      some "Error: Failed to fetch media data" ∧
    renderedError (applyFetchEvent {} .secondaryFailure) =
      some "Error: Failed to fetch content ratings or release dates" ∧
    renderedError (applyFetchEvent {} .primaryFailure) ≠
      renderedError (applyFetchEvent {} .secondaryFailure) :=
  ⟨rfl, rfl, by decide⟩

/-- C3 amended: whenever either fetch fails, the overlay body is replaced by a
single error string, but the string is specific to the failing fetch —
`Error: Failed to fetch media data` for the primary fetch and `Error: Failed
to fetch content ratings or release dates` for the certification fetch — so
the two causes are distinguishable to the end user. -/
theorem error_render_spec (s : ModalState) :
    renderedError (applyFetchEvent s .primaryFailure) =
      some ("Error: " ++ fetchDataErrorMessage) ∧
    renderedError (applyFetchEvent s .secondaryFailure) =
      some ("Error: " ++ ratingsErrorMessage) ∧
    ("Error: " ++ fetchDataErrorMessage : String) ≠
      "Error: " ++ ratingsErrorMessage :=
  ⟨rfl, rfl, by decide⟩

/-- C10: every successful fetch completion stores `null` into the shared error
slot; hence after one fetch fails, a later success of the other fetch clears
the recorded error and the error message is no longer rendered in place of
the overlay body. -/
theorem success_clears_error (s : ModalState) (d : MediaData) (m : MediaInfo) :
    (applyFetchEvent s (.primarySuccess d)).error = none ∧
    (applyFetchEvent s (.secondarySuccess m)).error = none ∧
    renderedError
      (applyFetchEvent (applyFetchEvent s .primaryFailure) (.secondarySuccess m)) = none ∧
    renderedError
      (applyFetchEvent (applyFetchEvent s .secondaryFailure) (.primarySuccess d)) = none :=
  ⟨rfl, rfl, rfl, rfl⟩

/-! ### Outside-click dismissal (C7) -/

/-- C7: for a single mousedown event while the overlay root element is
mounted, `onClose` is invoked exactly once when the event target lies outside
the root element, and is not invoked when the target lies inside it. -/
theorem handleClickOutside_spec (element : DomElement) (target : String) :
    (domContains element target = false →
      onCloseCallCount (some element) target = 1) ∧
    (domContains element target = true →
      onCloseCallCount (some element) target = 0) := by
  constructor <;> intro h <;> simp [onCloseCallCount, handleClickOutside, h]

/-- Witness for C7: a target outside a concrete root element dismisses once. -/
theorem handleClickOutside_spec_witness :
    domContains ⟨["root", "inner"]⟩ "outside" = false ∧
    onCloseCallCount (some ⟨["root", "inner"]⟩) "outside" = 1 :=
  ⟨by decide, (handleClickOutside_spec ⟨["root", "inner"]⟩ "outside").1 (by decide)⟩

/-! ### Star rating (C5) -/

/-- C5: for every vote average `v` with `0 ≤ v ≤ 10`, the star row has 5
icons and the number of filled ones equals `round (v / 2)` with halves
rounded up (`Math.round`); Mathlib's `round` on `ℚ` is exactly
round-half-up. -/
theorem filledStars_spec (v : ℚ) (h0 : 0 ≤ v) (h10 : v ≤ 10) :
    filledStars v = (round (v / 2)).toNat ∧ (starIcons v).length = 5 := by
  have hround : round (v / 2) = jsRound (v / 2) := by
    rw [round_eq]; rfl
  have hk0 : 0 ≤ jsRound (v / 2) := by
    unfold jsRound
    exact Int.floor_nonneg.mpr (by linarith)
  have hk5 : jsRound (v / 2) < 6 := by
    unfold jsRound
    refine Int.floor_lt.mpr ?_
    push_cast
    linarith
  refine ⟨?_, rfl⟩
  rw [hround]
  have hcases : jsRound (v / 2) = 0 ∨ jsRound (v / 2) = 1 ∨ jsRound (v / 2) = 2 ∨
      jsRound (v / 2) = 3 ∨ jsRound (v / 2) = 4 ∨ jsRound (v / 2) = 5 := by omega
  rcases hcases with h | h | h | h | h | h <;>
    · simp only [filledStars, starIcons, h]
      decide

/-- Witness for C5 at `v = 7`: 4 of the 5 stars are filled. -/
theorem filledStars_spec_witness :
    (0 : ℚ) ≤ 7 ∧ (7 : ℚ) ≤ 10 ∧ filledStars 7 = 4 := by
  refine ⟨by norm_num, by norm_num, ?_⟩
  rw [(filledStars_spec 7 (by norm_num) (by norm_num)).1]
  have h4 : round ((7 : ℚ) / 2) = 4 := by
    rw [round_eq]
    rw [show (7 : ℚ) / 2 + 1 / 2 = ((4 : ℤ) : ℚ) by norm_num, Int.floor_intCast]
  rw [h4]
  rfl

/-! ### Only the US entry matters (C6) -/

/-- Spec-side notion for C6: the sub-list of certification entries whose
country code is `US`, in order. Two responses "agree on their US entries"
when these lists are equal. -/
def usEntries (mediaInfo : Option MediaInfo) : List CertResult :=
  ((mediaInfo.bind MediaInfo.results).getD []).filter
    (fun result => result.iso_3166_1 == "US")

/-- `find?` only looks at the elements satisfying the predicate: it returns
the head of the filtered list. -/
lemma find_eq_head_filter {α : Type} (p : α → Bool) (l : List α) :
    l.find? p = (l.filter p).head? := by
  induction l with
  | nil => rfl
  | cons a l ih =>
    cases h : p a with
    | true => rw [List.find?_cons_of_pos l h, List.filter_cons, if_pos h, List.head?_cons]
    | false =>
      rw [List.find?_cons_of_neg l (by simp [h]), List.filter_cons, if_neg (by simp [h]), ih]

/-- The US lookup performed by the component is the head of `usEntries`. -/
lemma usReleaseInfo_eq_head (mediaInfo : Option MediaInfo) :
    usReleaseInfo mediaInfo = (usEntries mediaInfo).head? := by
  unfold usReleaseInfo usEntries
  cases mediaInfo.bind MediaInfo.results with
  | none => rfl
  | some results => exact find_eq_head_filter _ results

/-- C6: two certification responses that agree on their US entries yield the
same displayed certification for every media type, whatever their entries for
other country codes are — only the US entry influences the displayed
certification. -/
theorem us_noninterference (mediaType : String) (info1 info2 : Option MediaInfo)
    (h : usEntries info1 = usEntries info2) :
    displayedCertification mediaType info1 = displayedCertification mediaType info2 := by
  have hus : usReleaseInfo info1 = usReleaseInfo info2 := by
    rw [usReleaseInfo_eq_head, usReleaseInfo_eq_head, h]
  simp only [displayedCertification, displayCertification, relevantRelease,
    certifiedReleases, showRating, hus]

/-- Witness for C6: two responses with identical US entries but different FR
entries (and different orders) display the same certification. -/
theorem us_noninterference_witness :
    usEntries (some ⟨some [⟨"US", some "PG-13", some [⟨"PG-13", 10⟩]⟩,
        ⟨"FR", some "12", some []⟩]⟩) =
      usEntries (some ⟨some [⟨"FR", some "16", none⟩,
        ⟨"US", some "PG-13", some [⟨"PG-13", 10⟩]⟩]⟩) ∧
    displayedCertification "movie"
        (some ⟨some [⟨"US", some "PG-13", some [⟨"PG-13", 10⟩]⟩,
          ⟨"FR", some "12", some []⟩]⟩) =
      displayedCertification "movie"
        (some ⟨some [⟨"FR", some "16", none⟩,
          ⟨"US", some "PG-13", some [⟨"PG-13", 10⟩]⟩]⟩) :=
  ⟨by decide, us_noninterference "movie" _ _ (by decide)⟩

/-! ### Certification selection (C1, C2) -/

/-- The seedless reduce with `laterRelease` returns an element of the list
whose release date is maximal and which is the last entry attaining that
date: every entry strictly after it in iteration order is strictly older. -/
lemma foldl_laterRelease_spec (h : ReleaseDateEntry) (t : List ReleaseDateEntry) :
    ∃ l1 l2, h :: t = l1 ++ (t.foldl laterRelease h) :: l2 ∧
      (∀ x ∈ h :: t, x.release_date ≤ (t.foldl laterRelease h).release_date) ∧
      (∀ x ∈ l2, x.release_date < (t.foldl laterRelease h).release_date) := by
  induction t generalizing h with
  | nil =>
    refine ⟨[], [], rfl, ?_, by simp⟩
    intro x hx
    simp only [List.foldl_nil]
    rcases List.mem_cons.mp hx with rfl | hx2
    · exact le_refl _
    · exact absurd hx2 (List.not_mem_nil x)
  | cons c t ih =>
    simp only [List.foldl_cons]
    obtain ⟨l1, l2, heq, hmax, hlt⟩ := ih (laterRelease h c)
    by_cases hd : h.release_date > c.release_date
    · have hstep : laterRelease h c = h := by unfold laterRelease; exact if_pos hd
      rw [hstep] at heq hmax hlt ⊢
      cases l1 with
      | nil =>
        simp only [List.nil_append] at heq
        obtain ⟨hh, hteq⟩ := List.cons_eq_cons.mp heq
        refine ⟨[], c :: t, ?_, ?_, ?_⟩
        · simp only [List.nil_append]
          rw [← hh]
        · intro x hx
          rcases List.mem_cons.mp hx with rfl | hx2
          · exact hmax _ (List.mem_cons_self _ _)
          rcases List.mem_cons.mp hx2 with rfl | hx3
          · exact le_of_lt (lt_of_lt_of_le hd (hmax h (List.mem_cons_self _ _)))
          · exact hmax x (List.mem_cons_of_mem _ hx3)
        · intro x hx
          rcases List.mem_cons.mp hx with rfl | hx2
          · exact lt_of_lt_of_le hd (hmax h (List.mem_cons_self _ _))
          · exact hlt x (hteq ▸ hx2)
      | cons a l1 =>
        rw [List.cons_append] at heq
        obtain ⟨hh, hteq⟩ := List.cons_eq_cons.mp heq
        refine ⟨h :: c :: l1, l2, ?_, ?_, ?_⟩
        · rw [List.cons_append, List.cons_append, ← hteq]
        · intro x hx
          rcases List.mem_cons.mp hx with rfl | hx2
          · exact hmax _ (List.mem_cons_self _ _)
          rcases List.mem_cons.mp hx2 with rfl | hx3
          · exact le_of_lt (lt_of_lt_of_le hd (hmax h (List.mem_cons_self _ _)))
          · exact hmax x (List.mem_cons_of_mem _ hx3)
        · exact hlt
    · have hstep : laterRelease h c = c := by unfold laterRelease; exact if_neg hd
      have hle : h.release_date ≤ c.release_date := le_of_not_lt hd
      rw [hstep] at heq hmax hlt ⊢
      refine ⟨h :: l1, l2, ?_, ?_, ?_⟩
      · rw [List.cons_append, ← heq]
      · intro x hx
        rcases List.mem_cons.mp hx with rfl | hx2
        · exact le_trans hle (hmax c (List.mem_cons_self _ _))
        · exact hmax x hx2
      · exact hlt

/-- C1 counterexample: a certification response whose US entry carries one
certified release entry labeled `PG-13`, displayed for a show: the rendered
certification is the fallback `NR`, not the label `PG-13` of the (unique,
hence latest) certified entry, because the show badge reads the `rating`
field and ignores `release_dates`. -/
theorem show_ignores_certified_releases_cex :
    certifiedReleases (some ⟨some [⟨"US", none, some [⟨"PG-13", 100⟩]⟩]⟩) =
      [⟨"PG-13", 100⟩] ∧
    displayedCertification "show"
      (some ⟨some [⟨"US", none, some [⟨"PG-13", 100⟩]⟩]⟩) = "NR" ∧
    ("NR" : String) ≠ "PG-13" :=
  ⟨by decide, by decide, by decide⟩

/-- C1 amended: when the media type is movie, for every certification
response whose US entry contains at least one release entry with a non-empty
certification label, the displayed certification is the label of the entry
with the latest release date among those entries, the last one in iteration
order winning ties. (For shows the badge shows the US `rating` field
instead.) -/
theorem movie_certification_latest (mediaInfo : Option MediaInfo)
    (hne : certifiedReleases mediaInfo ≠ []) :
    ∃ e l1 l2, certifiedReleases mediaInfo = l1 ++ e :: l2 ∧
      displayedCertification "movie" mediaInfo = e.certification ∧
      (∀ x ∈ certifiedReleases mediaInfo, x.release_date ≤ e.release_date) ∧
      (∀ x ∈ l2, x.release_date < e.release_date) := by
  cases hc : certifiedReleases mediaInfo with
  | nil => exact absurd hc hne
  | cons h t =>
    obtain ⟨l1, l2, heq, hmax, hlt⟩ := foldl_laterRelease_spec h t
    refine ⟨t.foldl laterRelease h, l1, l2, heq, ?_, hmax, hlt⟩
    simp [displayedCertification, displayCertification, relevantRelease, hc]

/-- Witness for C1 (amended): a US entry with certified entries dated 50,
100, 100 — the displayed certification is the label of the last
latest-dated entry. -/
theorem movie_certification_latest_witness :
    certifiedReleases (some ⟨some [⟨"US", none,
        some [⟨"PG", 50⟩, ⟨"R", 100⟩, ⟨"PG-13", 100⟩]⟩]⟩) ≠ [] ∧
    displayedCertification "movie" (some ⟨some [⟨"US", none,
        some [⟨"PG", 50⟩, ⟨"R", 100⟩, ⟨"PG-13", 100⟩]⟩]⟩) = "PG-13" ∧
    (∃ e l1 l2,
      certifiedReleases (some ⟨some [⟨"US", none,
          some [⟨"PG", 50⟩, ⟨"R", 100⟩, ⟨"PG-13", 100⟩]⟩]⟩) = l1 ++ e :: l2 ∧
      displayedCertification "movie" (some ⟨some [⟨"US", none,
          some [⟨"PG", 50⟩, ⟨"R", 100⟩, ⟨"PG-13", 100⟩]⟩]⟩) = e.certification ∧
      (∀ x ∈ certifiedReleases (some ⟨some [⟨"US", none,
          some [⟨"PG", 50⟩, ⟨"R", 100⟩, ⟨"PG-13", 100⟩]⟩]⟩),
        x.release_date ≤ e.release_date) ∧
      (∀ x ∈ l2, x.release_date < e.release_date)) :=
  ⟨by decide, by decide, movie_certification_latest _ (by decide)⟩

/-- C2 counterexample: a show whose US entry has `rating = "TV-MA"` and zero
certified release entries. The claim demands `NR`, but the rendered
certification is `TV-MA`: the show fallback is keyed on the `rating` field,
not on the certified release entries. -/
theorem show_fallback_keyed_on_rating_cex :
    certifiedReleases (some ⟨some [⟨"US", some "TV-MA", some []⟩]⟩) = [] ∧
    displayedCertification "show" (some ⟨some [⟨"US", some "TV-MA", some []⟩]⟩) =
      "TV-MA" ∧
    ("TV-MA" : String) ≠ "NR" :=
  ⟨by decide, by decide, by decide⟩

/-- C2 amended: for movies the displayed certification is `Not Rated`
whenever no US entry exists or the US entry has zero certified release
entries; for shows it is `NR` whenever no US entry exists or the US entry's
`rating` is absent or empty, and it is the US `rating` itself when that
rating is non-empty. -/
theorem certification_fallback_spec (mediaInfo : Option MediaInfo) :
    ((usReleaseInfo mediaInfo = none ∨ certifiedReleases mediaInfo = []) →
      displayedCertification "movie" mediaInfo = "Not Rated") ∧
    (usReleaseInfo mediaInfo = none →
      displayedCertification "show" mediaInfo = "NR") ∧
    (∀ info, usReleaseInfo mediaInfo = some info → info.rating = none →
      displayedCertification "show" mediaInfo = "NR") ∧
    (∀ info, usReleaseInfo mediaInfo = some info → info.rating = some "" →
      displayedCertification "show" mediaInfo = "NR") ∧
    (∀ info rating, usReleaseInfo mediaInfo = some info →
      info.rating = some rating → rating ≠ "" →
      displayedCertification "show" mediaInfo = rating) := by
  refine ⟨fun h => ?_, fun h => ?_, fun info h1 h2 => ?_, fun info h1 h2 => ?_,
    fun info rating h1 h2 h3 => ?_⟩
  · have hempty : certifiedReleases mediaInfo = [] := by
      rcases h with h | h
      · simp [certifiedReleases, h]
      · exact h
    simp [displayedCertification, displayCertification, relevantRelease, hempty]
  · simp [displayedCertification, showRating, h]
  · simp [displayedCertification, showRating, h1, h2]
  · simp [displayedCertification, showRating, h1, h2]
  · simp [displayedCertification, showRating, h1, h2, h3]

/-- Witness for C2 (amended): a null response displays `Not Rated` for a
movie, and a US entry whose rating is `TV-14` displays `TV-14` for a show. -/
theorem certification_fallback_spec_witness :
    (usReleaseInfo none = none ∨ certifiedReleases none = []) ∧
    displayedCertification "movie" none = "Not Rated" ∧
    usReleaseInfo (some ⟨some [⟨"US", some "TV-14", none⟩]⟩) =
      some ⟨"US", some "TV-14", none⟩ ∧
    displayedCertification "show" (some ⟨some [⟨"US", some "TV-14", none⟩]⟩) =
      "TV-14" :=
  ⟨Or.inl rfl, (certification_fallback_spec none).1 (Or.inl rfl), by decide,
    (certification_fallback_spec (some ⟨some [⟨"US", some "TV-14", none⟩]⟩)).2.2.2.2
      ⟨"US", some "TV-14", none⟩ "TV-14" (by decide) rfl (by decide)⟩

end PopupModal
